import Mathlib

/-!
Verification of the `DimensionsQuery` client (src/dimensions.py).

The development shallowly embeds the class and the pandas operations it
relies on. Python attributes that may hold `None` are modelled as
`Option`; an attribute that may not yet exist on the object carries a
second `Option` layer (outer `none` = reading it raises `AttributeError`).
Python truthiness of optional strings (`if self.where:`) is modelled by
`optTruthy`. The external boundaries (the dimcli login and the wire
response) are modelled as opaque data passed in as parameters; pandas
`Series.value_counts` is modelled by `value_counts` below, following its
behaviour: nulls dropped, counts sorted descending with a stable sort so
that ties keep first-seen order.
-/

universe u

namespace Dimensions

/-- Python exceptions the embedded code can raise: `ValueError` with its
message, and `AttributeError` with the missing attribute name. -/
inductive PyError where
  | valueError (msg : String)
  | attributeError (attr : String)

/-- One affiliation object inside an author record: the two sub-fields the
aggregations read (`name`, `country`); either may be null in the data. -/
structure Affiliation where
  name : Option String
  country : Option String

/-- One author object of a record: `researcher_id` (possibly null) and the
list of affiliation objects (possibly empty). -/
structure Author where
  researcher_id : Option String
  affiliations : List Affiliation

/-- One row of the result table, holding the columns the aggregation
routines access: `journal.title` (possibly null) and the `authors` list. -/
structure Record where
  journal_title : Option String
  authors : List Author

/-- The tabular result set: one row per returned record. -/
abbrev ResultSet := List Record

/-- The authenticated session produced by `dimcli.login` followed by
`dimcli.Dsl()` (external library), modelled by the credentials it was
opened with. -/
structure Dsl where
  api_key : String
  endpoint : String

/-- Keep the first occurrence of each value of a list and drop later
duplicates: the key order in which a hash-table count first meets each
distinct value. -/
def dedupFirst {α : Type u} [DecidableEq α] : List α → List α
  | [] => []
  | x :: xs => x :: (dedupFirst xs).filter (fun y => decide (y ≠ x))

/-- The counting stage of pandas `Series.value_counts` before sorting:
nulls are dropped (`dropna` defaults to true), and each distinct remaining
value is paired with its number of occurrences, keys in first-seen order. -/
def baseCounts {α : Type u} [DecidableEq α] (col : List (Option α)) : List (α × Nat) :=
  let vals := col.filterMap id
  (dedupFirst vals).map (fun v => (v, (vals.filter (fun x => decide (x = v))).length))

/-- Ordering of (value, count) pairs used by `value_counts`: descending by
count. -/
def countGE {α : Type u} (p q : α × Nat) : Prop := q.2 ≤ p.2

instance {α : Type u} : DecidableRel (@countGE α) := fun p q => Nat.decLe q.2 p.2

instance {α : Type u} : IsTotal (α × Nat) countGE := ⟨fun a b => Nat.le_total b.2 a.2⟩

instance {α : Type u} : IsTrans (α × Nat) countGE := ⟨fun _ _ _ hab hbc => Nat.le_trans hbc hab⟩

/-- Model of pandas `Series.value_counts()`: drop nulls, count the
occurrences of each distinct value, and stably sort the (value, count)
pairs by descending count, so that equal counts keep first-seen order. -/
def value_counts {α : Type u} [DecidableEq α] (col : List (Option α)) : List (α × Nat) :=
  List.insertionSort countGE (baseCounts col)

/-- Python truthiness of an optional string: `None` and the empty string
are falsy, every other string is truthy. -/
def optTruthy : Option String → Bool
  | none => false
  | some s => !(s == "")

/-- The `_return` segment built at src/dimensions.py lines 57-60: a
bracketed projection when `return_cols` is truthy, bare `return <search>`
otherwise. -/
def renderReturn (search : String) (return_cols : Option String) : String :=
  if optTruthy return_cols then "return " ++ search ++ "[" ++ return_cols.getD "" ++ "]"
  else "return " ++ search

/-- The query string stored by `update_query`, built from the four query
fields exactly as the f-strings at src/dimensions.py lines 62-65 build it. -/
def renderQuery (topic : String) (where_ : Option String) (search : String)
    (return_cols : Option String) : String :=
  if optTruthy where_ then
    "search " ++ search ++ " for \"" ++ topic ++ "\" where " ++ where_.getD "" ++ " "
      ++ renderReturn search return_cols
  else
    "search " ++ search ++ " for \"" ++ topic ++ "\" " ++ renderReturn search return_cols

/-- The attribute state of a `DimensionsQuery` instance. `query` holds
`none` when the attribute holds Python `None`; `results` additionally uses
an outer `Option` because `__init__` never assigns that attribute, so
reading it may raise `AttributeError` (outer `none` = attribute absent). -/
structure DimensionsQuery where
  endpoint : String
  api_key : String
  dsl : Dsl
  topic : String
  where_ : Option String
  search : String
  return_cols : Option String
  query : Option String
  results : Option (Option ResultSet)

/-- `update_query`: recompute `self.query` from the current fields. -/
def DimensionsQuery.update_query (s : DimensionsQuery) : DimensionsQuery :=
  { s with query := some (renderQuery s.topic s.where_ s.search s.return_cols) }

/-- `update_topic`: overwrite the topic and re-render the query. -/
def DimensionsQuery.update_topic (s : DimensionsQuery) (topic : String) : DimensionsQuery :=
  DimensionsQuery.update_query { s with topic := topic }

/-- `update_where`: overwrite the where clause and re-render the query. -/
def DimensionsQuery.update_where (s : DimensionsQuery) (w : Option String) : DimensionsQuery :=
  DimensionsQuery.update_query { s with where_ := w }

/-- `update_search`: overwrite the search type and re-render the query. -/
def DimensionsQuery.update_search (s : DimensionsQuery) (search : String) : DimensionsQuery :=
  DimensionsQuery.update_query { s with search := search }

/-- The state `__init__` builds when the API key is present: the login
succeeds (external call, modelled as always succeeding) and `update_query`
renders the initial query string. The `results` attribute is never
assigned. -/
def initState (key topic : String) (w : Option String) (search : String)
    (cols : Option String) (endpoint : String) : DimensionsQuery :=
  DimensionsQuery.update_query
    { endpoint := endpoint, api_key := key
      dsl := { api_key := key, endpoint := endpoint }
      topic := topic, where_ := w, search := search, return_cols := cols
      query := none, results := none }

/-- `__init__` together with `validate_key`: `DIMENSIONS_API_KEY` is read
from the environment (passed here as `envKey`); a missing key raises
`ValueError` before any query state is set. -/
def DimensionsQuery.init (envKey : Option String) (topic : String) (w : Option String)
    (search : String) (cols : Option String) (endpoint : String) :
    Except PyError DimensionsQuery :=
  match envKey with
  | none => .error (.valueError
      "API key not found. Make sure to set DIMENSIONS_API_KEY in your .env file.")
  | some key => .ok (initState key topic w search cols endpoint)

/-- `run_query` (with `df=True`, the default): guard against `self.query`
being `None`, then submit through the external client. The wire is
external, so the response is a parameter. The response is stored in
`self.results` and a copy is returned. -/
def DimensionsQuery.run_query (s : DimensionsQuery) (response : ResultSet) :
    Except PyError (DimensionsQuery × ResultSet) :=
  match s.query with
  | none => .error (.valueError "Query not specified. Use update_query method to set the query.")
  | some _ => .ok ({ s with results := some (some response) }, response)

/-- The list comprehension `[author for authors in df['authors'] for author
in authors]`: one entry per (record, author) pair, in record order. -/
def explodeAuthors (df : List Record) : List Author :=
  df.flatMap Record.authors

/-- The lambda at src/dimensions.py line 210:
`x[0]['country'] if x else None` on the affiliations list. -/
def extractCountry (a : Author) : Option String :=
  match a.affiliations with
  | [] => none
  | aff :: _ => aff.country

/-- The lambda at src/dimensions.py line 235:
`x[0]['name'] if x else None` on the affiliations list. -/
def extractName (a : Author) : Option String :=
  match a.affiliations with
  | [] => none
  | aff :: _ => aff.name

/-- The frequency table computed by `plot_most_common_journal`:
`value_counts` of the `journal.title` column, truncated with `head(10)`. -/
def plot_most_common_journal (df : List Record) : List (String × Nat) :=
  (value_counts (df.map Record.journal_title)).take 10

/-- The frequency table computed by `plot_publications_per_author`:
`value_counts` of the exploded `researcher_id` column, `head(10)`. -/
def plot_publications_per_author (df : List Record) : List (String × Nat) :=
  (value_counts ((explodeAuthors df).map Author.researcher_id)).take 10

/-- The frequency table computed by `plot_most_common_country`:
`value_counts` of the first-affiliation country of each exploded author,
`head(10)`. -/
def plot_most_common_country (df : List Record) : List (String × Nat) :=
  (value_counts ((explodeAuthors df).map extractCountry)).take 10

/-- The frequency table computed by `plot_most_common_institutions`:
`value_counts` of the first-affiliation name of each exploded author,
`head(10)`. -/
def plot_most_common_institutions (df : List Record) : List (String × Nat) :=
  (value_counts ((explodeAuthors df).map extractName)).take 10

/-- `analyze_results`: reads `self.results` (`AttributeError` if the
attribute was never assigned, the `ValueError` guard if it holds `None`),
normalizes to a dataframe and runs the four aggregation routines in fixed
order, returning their four frequency tables. -/
def DimensionsQuery.analyze_results (s : DimensionsQuery) :
    Except PyError
      (List (String × Nat) × List (String × Nat) × List (String × Nat) × List (String × Nat)) :=
  match s.results with
  | none => .error (.attributeError "results")
  | some none => .error (.valueError "No results to analyze. Run the query first.")
  | some (some df) =>
      .ok (plot_most_common_journal df, plot_publications_per_author df,
        plot_most_common_country df, plot_most_common_institutions df)

/-- The operations available on a constructed instance: the three setters
and a query submission (parameterized by the external response). -/
inductive Op where
  | setTopic (topic : String)
  | setWhere (w : Option String)
  | setSearch (search : String)
  | runQuery (response : ResultSet)

/-- One operation applied to the instance state; a submission that raises
leaves the state unchanged. -/
def applyOp (s : DimensionsQuery) : Op → DimensionsQuery
  | .setTopic t => s.update_topic t
  | .setWhere w => s.update_where w
  | .setSearch c => s.update_search c
  | .runQuery r =>
      match s.run_query r with
      | .ok (s2, _) => s2
      | .error _ => s

/-- A sequence of operations applied left to right. -/
def applyOps (s : DimensionsQuery) (ops : List Op) : DimensionsQuery :=
  ops.foldl applyOp s

/-- The no-stale-query invariant: the stored query string is exactly the
rendering of the current four query fields. -/
def StaleFree (s : DimensionsQuery) : Prop :=
  s.query = some (renderQuery s.topic s.where_ s.search s.return_cols)

/-- The three-record scenario of the end-to-end spec example: record 1 has
a US-affiliated author and an author with an empty affiliations list,
records 2 and 3 have one US-affiliated author each. -/
def scenarioC2 : List Record :=
  [ { journal_title := some "J1"
      authors := [ { researcher_id := some "r1"
                     affiliations := [{ name := some "U", country := some "US" }] },
                   { researcher_id := some "r2", affiliations := [] } ] },
    { journal_title := some "J2"
      authors := [ { researcher_id := some "r3"
                     affiliations := [{ name := some "U", country := some "US" }] } ] },
    { journal_title := some "J3"
      authors := [ { researcher_id := some "r4"
                     affiliations := [{ name := some "U", country := some "US" }] } ] } ]

/-- A result table whose `journal.title` column has 15 distinct values
(with two of them repeated), used to instantiate the truncation theorem. -/
def dfTitles : List Record :=
  (["a", "b", "a", "c", "d", "e", "f", "g", "h", "i", "j", "k", "l", "m", "n", "o", "b"]).map
    (fun t => { journal_title := some t, authors := [] })

theorem mergeSpaceReturn (x : String) : " " ++ ("return " ++ x) = " return " ++ x := by
  rw [← String.append_assoc]
  exact rfl

theorem mergeQuoteReturn (x : String) : "\" " ++ ("return " ++ x) = "\" return " ++ x := by
  rw [← String.append_assoc]
  exact rfl

theorem run_query_ok_of_staleFree (s : DimensionsQuery) (response : ResultSet)
    (h : StaleFree s) :
    s.run_query response
      = Except.ok (⟨s.endpoint, s.api_key, s.dsl, s.topic, s.where_, s.search,
          s.return_cols, s.query, some (some response)⟩, response) := by
  unfold DimensionsQuery.run_query
  rw [h]

theorem staleFree_applyOp (s : DimensionsQuery) (op : Op) (h : StaleFree s) :
    StaleFree (applyOp s op) := by
  cases op with
  | setTopic t => rfl
  | setWhere w => rfl
  | setSearch c => rfl
  | runQuery r =>
      unfold applyOp DimensionsQuery.run_query
      rw [h]
      exact rfl

theorem staleFree_applyOps (ops : List Op) (s : DimensionsQuery) (h : StaleFree s) :
    StaleFree (applyOps s ops) := by
  induction ops generalizing s with
  | nil => exact h
  | cons op rest ih => exact ih (applyOp s op) (staleFree_applyOp s op h)

theorem staleFree_initState (key topic : String) (w : Option String) (search : String)
    (cols : Option String) (endpoint : String) :
    StaleFree (initState key topic w search cols endpoint) := rfl

theorem filter_orderedInsert_eq {α : Type u} (x : α × Nat) (c : Nat) (hx : x.2 = c)
    (l : List (α × Nat)) :
    (List.orderedInsert countGE x l).filter (fun p => p.2 == c)
      = x :: l.filter (fun p => p.2 == c) := by
  induction l with
  | nil => simp [hx]
  | cons y ys ih =>
    rw [List.orderedInsert]
    by_cases hyx : countGE x y
    · rw [if_pos hyx]
      simp [List.filter_cons, hx]
    · rw [if_neg hyx]
      have hylt : x.2 < y.2 := Nat.lt_of_not_le hyx
      have hy : (y.2 == c) = false := by
        have hne : y.2 ≠ c := by omega
        simpa using hne
      rw [List.filter_cons, List.filter_cons, hy, ih]
      simp

theorem filter_orderedInsert_ne {α : Type u} (x : α × Nat) (c : Nat) (hx : x.2 ≠ c)
    (l : List (α × Nat)) :
    (List.orderedInsert countGE x l).filter (fun p => p.2 == c)
      = l.filter (fun p => p.2 == c) := by
  induction l with
  | nil => simp [hx]
  | cons y ys ih =>
    rw [List.orderedInsert]
    by_cases hyx : countGE x y
    · rw [if_pos hyx]
      simp [List.filter_cons, hx]
    · rw [if_neg hyx]
      rw [List.filter_cons, List.filter_cons, ih]

theorem filter_insertionSort_eq {α : Type u} (c : Nat) (l : List (α × Nat)) :
    (List.insertionSort countGE l).filter (fun p => p.2 == c)
      = l.filter (fun p => p.2 == c) := by
  induction l with
  | nil => rfl
  | cons x xs ih =>
    rw [List.insertionSort]
    by_cases hx : x.2 = c
    · rw [filter_orderedInsert_eq x c hx, ih, List.filter_cons]
      simp [hx]
    · rw [filter_orderedInsert_ne x c hx, ih, List.filter_cons]
      simp [hx]

/-- Claim C1, counterexample: a result table whose single author has an
empty affiliations list produces EMPTY country and institution frequency
tables — the author contributes zero entries, not one sentinel entry. -/
theorem affiliationless_author_yields_no_entry :
    plot_most_common_country
      [{ journal_title := some "J"
         authors := [{ researcher_id := some "r1", affiliations := [] }] }] = []
  ∧ plot_most_common_institutions
      [{ journal_title := some "J"
         authors := [{ researcher_id := some "r1", affiliations := [] }] }] = [] :=
  ⟨rfl, rfl⟩

/-- Claim C1, amended: an author whose affiliations list is empty is mapped
to a null placeholder which `value_counts` then drops, so the author
contributes zero entries to the country and institution frequency counts
(and no error is raised): adding such an author to a record leaves both
tables unchanged. -/
theorem affiliationless_author_contributes_nothing (a : Author) (h : a.affiliations = [])
    (r : Record) (df : List Record) :
    plot_most_common_country ({ r with authors := a :: r.authors } :: df)
      = plot_most_common_country (r :: df)
  ∧ plot_most_common_institutions ({ r with authors := a :: r.authors } :: df)
      = plot_most_common_institutions (r :: df) := by
  have hc : extractCountry a = none := by unfold extractCountry; rw [h]
  have hn : extractName a = none := by unfold extractName; rw [h]
  have he : explodeAuthors ({ r with authors := a :: r.authors } :: df)
      = a :: explodeAuthors (r :: df) := rfl
  constructor
  · unfold plot_most_common_country
    rw [he, List.map_cons, hc]
    rfl
  · unfold plot_most_common_institutions
    rw [he, List.map_cons, hn]
    rfl

/-- Witness for the amended claim C1 at a concrete instance. -/
theorem affiliationless_author_contributes_nothing_witness :
    (Author.mk (some "r2") []).affiliations = []
  ∧ (plot_most_common_country
        [{ journal_title := some "J"
           authors := [Author.mk (some "r2") [],
             Author.mk (some "r1") [Affiliation.mk (some "MIT") (some "US")]] }]
      = plot_most_common_country
        [{ journal_title := some "J"
           authors := [Author.mk (some "r1") [Affiliation.mk (some "MIT") (some "US")]] }]
    ∧ plot_most_common_institutions
        [{ journal_title := some "J"
           authors := [Author.mk (some "r2") [],
             Author.mk (some "r1") [Affiliation.mk (some "MIT") (some "US")]] }]
      = plot_most_common_institutions
        [{ journal_title := some "J"
           authors := [Author.mk (some "r1") [Affiliation.mk (some "MIT") (some "US")]] }]) :=
  ⟨rfl,
    affiliationless_author_contributes_nothing (Author.mk (some "r2") []) rfl
      { journal_title := some "J"
        authors := [Author.mk (some "r1") [Affiliation.mk (some "MIT") (some "US")]] } []⟩

/-- Claim C2, counterexample: in the three-record scenario the country
frequency table contains no sentinel row at all — the pair
("no value", 1) the claim requires is not a member. -/
theorem scenario_sentinel_absent : ("no value", 1) ∉ plot_most_common_country scenarioC2 := by
  decide

/-- Claim C2, amended: in the three-record scenario the country frequency
table is exactly [US = 3]: the US count is 3 as claimed, but the
empty-affiliation author is dropped rather than counted under a sentinel. -/
theorem scenario_country_table : plot_most_common_country scenarioC2 = [("US", 3)] := rfl

/-- Claim C3 (code bug): on every freshly constructed instance,
`analyze_results` raises `AttributeError` because `__init__` never assigns
`self.results`, so the intended out-of-order `ValueError` guard at
src/dimensions.py lines 130-131 is dead code. -/
theorem analyze_before_submit_attribute_error (key topic : String) (w : Option String)
    (search : String) (cols : Option String) (endpoint : String) :
    (initState key topic w search cols endpoint).analyze_results
      = Except.error (PyError.attributeError "results") := rfl

/-- Claim C4, counterexample: with the filter field present but equal to
the empty string, the rendered query omits the where segment, so the
segment is not included "exactly when the field is absent". -/
theorem render_empty_where_omits_segment :
    renderQuery "t" (some "") "publications" none
      = "search publications for \"t\" return publications"
  ∧ renderQuery "t" (some "") "publications" none
      ≠ "search publications for \"t\" where  return publications" :=
  ⟨rfl, by decide⟩

/-- Claim C4, amended: with no filter and no projection the rendered query
is exactly the bare form, and with a nonempty filter and nonempty
projection it is exactly the full form; segments are omitted exactly when
their field is absent or the empty string. -/
theorem renderQuery_shape (topic target w c : String) (hw : w ≠ "") (hc : c ≠ "") :
    renderQuery topic none target none
      = "search " ++ target ++ " for \"" ++ topic ++ "\" return " ++ target
  ∧ renderQuery topic (some w) target (some c)
      = "search " ++ target ++ " for \"" ++ topic ++ "\" where " ++ w ++ " return "
          ++ target ++ "[" ++ c ++ "]" := by
  have hw2 : optTruthy (some w) = true := by simp [optTruthy, hw]
  have hc2 : optTruthy (some c) = true := by simp [optTruthy, hc]
  constructor
  · simp [renderQuery, renderReturn, optTruthy, String.append_assoc, mergeQuoteReturn]
  · unfold renderQuery renderReturn
    rw [hw2, hc2]
    simp [String.append_assoc, mergeSpaceReturn]

/-- Witness for the amended claim C4 at concrete inputs. -/
theorem renderQuery_shape_witness :
    ("X" : String) ≠ ""
  ∧ ("a+b" : String) ≠ ""
  ∧ (renderQuery "t" none "publications" none
        = "search publications for \"t\" return publications"
    ∧ renderQuery "t" (some "X") "publications" (some "a+b")
        = "search publications for \"t\" where X return publications[a+b]") :=
  ⟨by decide, by decide, renderQuery_shape "t" "publications" "X" "a+b" (by decide) (by decide)⟩

/-- Claim C5: construction with the credential absent from the environment
fails with the `ValueError`, and with the credential present it succeeds
and holds an authenticated session opened with that key and endpoint. -/
theorem init_credential_check (topic : String) (w : Option String) (search : String)
    (cols : Option String) (endpoint : String) :
    DimensionsQuery.init none topic w search cols endpoint
      = Except.error (PyError.valueError
          "API key not found. Make sure to set DIMENSIONS_API_KEY in your .env file.")
  ∧ ∀ key, DimensionsQuery.init (some key) topic w search cols endpoint
        = Except.ok (initState key topic w search cols endpoint)
      ∧ (initState key topic w search cols endpoint).dsl
        = { api_key := key, endpoint := endpoint } :=
  ⟨rfl, fun _ => ⟨rfl, rfl⟩⟩

/-- Claim C6: any two distinct setters applied in either order to the same
starting state yield the same final rendered query string. -/
theorem setters_commute (s : DimensionsQuery) (t : String) (w : Option String) (c : String) :
    ((s.update_topic t).update_where w).query = ((s.update_where w).update_topic t).query
  ∧ ((s.update_topic t).update_search c).query = ((s.update_search c).update_topic t).query
  ∧ ((s.update_where w).update_search c).query = ((s.update_search c).update_where w).query :=
  ⟨rfl, rfl, rfl⟩

/-- Claim C7: after construction and after every sequence of operations,
the stored query string equals the pure rendering of the current four
query fields — the rendered string is never stale. -/
theorem query_never_stale (key topic : String) (w : Option String) (search : String)
    (cols : Option String) (endpoint : String) (ops : List Op) :
    (applyOps (initState key topic w search cols endpoint) ops).query
      = some (renderQuery
          (applyOps (initState key topic w search cols endpoint) ops).topic
          (applyOps (initState key topic w search cols endpoint) ops).where_
          (applyOps (initState key topic w search cols endpoint) ops).search
          (applyOps (initState key topic w search cols endpoint) ops).return_cols) :=
  staleFree_applyOps ops _ (staleFree_initState key topic w search cols endpoint)

/-- Claim C8: whenever the `journal.title` column has exactly 15 distinct
non-null values, the top-10 table of `plot_most_common_journal` has
exactly 10 rows, is sorted by descending count, and the underlying
`value_counts` output keeps ties in first-seen order: for every count
value, the rows carrying it appear exactly as in the first-seen-ordered
count list. -/
theorem plot_most_common_journal_top10 (df : List Record)
    (h : (dedupFirst ((df.map Record.journal_title).filterMap id)).length = 15) :
    (plot_most_common_journal df).length = 10
  ∧ List.Sorted countGE (plot_most_common_journal df)
  ∧ ∀ c, (value_counts (df.map Record.journal_title)).filter (fun p => p.2 == c)
      = (baseCounts (df.map Record.journal_title)).filter (fun p => p.2 == c) := by
  refine ⟨?_, ?_, ?_⟩
  · have hlen : (value_counts (df.map Record.journal_title)).length = 15 := by
      rw [value_counts, List.length_insertionSort, baseCounts]
      simpa using h
    unfold plot_most_common_journal
    rw [List.length_take, hlen]
    omega
  · exact List.Pairwise.sublist (List.take_sublist 10 _) (List.sorted_insertionSort countGE _)
  · intro c
    exact filter_insertionSort_eq c (baseCounts (df.map Record.journal_title))

/-- Witness for claim C8 on a concrete 17-row table with 15 distinct
journal titles. -/
theorem plot_most_common_journal_top10_witness :
    (dedupFirst ((dfTitles.map Record.journal_title).filterMap id)).length = 15
  ∧ (plot_most_common_journal dfTitles).length = 10
  ∧ List.Sorted countGE (plot_most_common_journal dfTitles)
  ∧ (value_counts (dfTitles.map Record.journal_title)).filter (fun p => p.2 == 2)
      = (baseCounts (dfTitles.map Record.journal_title)).filter (fun p => p.2 == 2) :=
  ⟨by decide, (plot_most_common_journal_top10 dfTitles (by decide)).1,
    (plot_most_common_journal_top10 dfTitles (by decide)).2.1,
    (plot_most_common_journal_top10 dfTitles (by decide)).2.2 2⟩

/-- Claim C9: on every constructed instance, after any sequence of
operations the stored query is never `None`, so the defensive guard in
`run_query` is unreachable and submission always takes the success
branch. -/
theorem run_query_guard_unreachable (key topic : String) (w : Option String)
    (search : String) (cols : Option String) (endpoint : String) (ops : List Op)
    (response : ResultSet) :
    (applyOps (initState key topic w search cols endpoint) ops).query ≠ none
  ∧ ∃ out, (applyOps (initState key topic w search cols endpoint) ops).run_query response
      = Except.ok out := by
  have h : StaleFree (applyOps (initState key topic w search cols endpoint) ops) :=
    staleFree_applyOps ops _ (staleFree_initState key topic w search cols endpoint)
  constructor
  · rw [h]
    exact Option.some_ne_none _
  · exact ⟨_, run_query_ok_of_staleFree _ response h⟩

/-- Claim C10: an empty-string filter renders exactly as an absent filter,
and an empty-string projection renders exactly as an absent projection. -/
theorem empty_filter_renders_as_absent (s : DimensionsQuery) (topic search : String)
    (w : Option String) :
    (s.update_where (some "")).query = (s.update_where none).query
  ∧ renderQuery topic (some "") search none = renderQuery topic none search none
  ∧ renderQuery topic w search (some "") = renderQuery topic w search none :=
  ⟨rfl, rfl, rfl⟩

end Dimensions
